import Mathlib

/-
Verification of the RADIUS token adapter
(privacyidea/lib/tokens/radiustoken.py, class RadiusTokenClass).

The Python methods are embedded as pure Lean functions.  The mutable
`options` dictionary threaded through one authentication attempt becomes
the `Options` structure; `options.get(key)` returning None and an absent
key are indistinguishable through the accesses the source performs
(except for "transactionid", where membership is tested, modelled by
`Option.isSome`).  The external RADIUS exchange is an environment `Env`:
`respond k` is the outcome of the (k+1)-th `srv.SendPacket` of the
attempt (a reply code with its attribute list, or an exception raised
anywhere inside the `try` block).  Every function additionally threads
the list of Access-Requests sent so far (`sent`), so "no network call"
is "`sent` unchanged".  `PwCrypt` is opaque encryption of the presented
value; a `Request` records the plaintext that was encrypted.
-/

namespace RadiusToken

/-- pyrad.packet reply codes (pyrad constants). -/
def AccessRequest : Int := 1

/-- pyrad AccessAccept code. -/
def AccessAccept : Int := 2

/-- pyrad AccessReject code. -/
def AccessReject : Int := 3

/-- pyrad AccessChallenge code. -/
def AccessChallenge : Int := 11

/-- The per-attempt `options` dictionary, restricted to the keys this
module reads or writes.  `none` is both "absent" and "present as None",
except `transactionid` where `isSome` models dict membership. -/
structure Options where
  radius_result : Option Int := none
  radius_state : Option String := none
  radius_message : Option String := none
  transactionid : Option String := none
  transaction_id : Option String := none
  state : Option String := none
deriving DecidableEq

/-- One Access-Request as built in check_radius: the plaintext that was
encrypted into User-Password, and the State attribute attached (from the
transactionid option, overridden by a truthy radius_state argument). -/
structure Request where
  userPassword : String
  state : Option String := none
deriving DecidableEq

/-- Outcome of one SendPacket: a reply (code plus attribute list, each
attribute with its first value as pyrad's response[attr][0] reads it),
or an exception raised inside the try block (timeout, malformed reply,
client construction failure). -/
inductive NetResponse where
  | ok (code : Int) (attrs : List (String × String))
  | exn
deriving DecidableEq

/-- External collaborators: the RADIUS server (indexed by how many
requests were already sent in this attempt) and the base class PIN
comparison TokenClass.check_pin (outside this module, abstract). -/
structure Env where
  respond : Nat → NetResponse
  checkPin : String → Bool

/-- The token-side inputs check_radius resolves from token info.  Server
address, secret and dictionary only feed the opaque client construction,
so the resolved configuration is left abstract; the fields below are the
ones the decision logic reads. -/
structure TokenConf where
  serial : String
  check_pin_local : Bool
deriving DecidableEq

/-- A persisted Challenge record as this module observes it: the
is_valid() verdict, the stored data (RADIUS state or sentinel), and the
receive counter that set_otp_status() increments. -/
structure ChallengeRec where
  valid : Bool
  data : Option String
  otp_received : Nat := 0
deriving DecidableEq

/-- Result of check_radius: the returned counter (0 accept, -1 reject,
1 challenge), the updated options, and the request log. -/
structure CROut where
  result : Int
  opts : Options
  sent : List Request
deriving DecidableEq

/-- The Access-Request construction of check_radius lines 481-491: the
State attribute starts from options["transactionid"] when that key is
present, and a truthy (non-None, non-empty) radius_state argument
overwrites it. -/
def mkRequest (otpval : String) (opts : Options) (radius_state : Option String) : Request :=
  { userPassword := otpval,
    state :=
      match radius_state with
      | some s => if s = "" then opts.transactionid else some s
      | none => opts.transactionid }

/-- check_radius (lines 400-529).  Sentinel fast paths return early,
clearing radius_state and radius_message but not touching radius_result.
Otherwise one packet is sent; on AccessChallenge the unguarded log.info
access of opt["State"] and opt["Reply-Message"] (line 500) raises
KeyError when either attribute is absent, landing in the except handler
with result still -1 and the local radius_state/radius_message still
holding their pre-reply values. -/
def check_radius (conf : TokenConf) (env : Env) (otpval : String)
    (opts : Options) (radius_state : Option String) (log : List Request) : CROut :=
  if opts.radius_state = some "<SUCCESS>" then
    { result := 0,
      opts := { opts with radius_state := none, radius_message := none },
      sent := log }
  else if opts.radius_state = some "<REJECTED>" then
    { result := -1,
      opts := { opts with radius_state := none, radius_message := none },
      sent := log }
  else
    let sent := log ++ [mkRequest otpval opts radius_state]
    match env.respond log.length with
    | NetResponse.exn =>
        { result := -1,
          opts := { opts with
                    radius_result := some (-1),
                    radius_state := radius_state,
                    radius_message := none },
          sent := sent }
    | NetResponse.ok code attrs =>
        if code = AccessChallenge then
          match attrs.lookup "State", attrs.lookup "Reply-Message" with
          | some st, some msg =>
              { result := 1,
                opts := { opts with
                          radius_result := some 1,
                          radius_state := some st,
                          radius_message := some msg },
                sent := sent }
          | some _, none =>
              { result := -1,
                opts := { opts with
                          radius_result := some (-1),
                          radius_state := radius_state,
                          radius_message := none },
                sent := sent }
          | none, _ =>
              { result := -1,
                opts := { opts with
                          radius_result := some (-1),
                          radius_state := radius_state,
                          radius_message := none },
                sent := sent }
        else if code = AccessAccept then
          { result := 0,
            opts := { opts with
                      radius_result := some 0,
                      radius_state := some "<SUCCESS>",
                      radius_message := some "RADIUS authentication succeeded" },
            sent := sent }
        else
          { result := -1,
            opts := { opts with
                      radius_result := some (-1),
                      radius_state := some "<REJECTED>",
                      radius_message := some "RADIUS authentication failed" },
            sent := sent }

/-- split_pin_pass (lines 328-340).  The source initialises
(0, "", passw) and then, when check_pin_local holds, overwrites the
triple with `self.split_pin_pass(self, passw)` — Python dispatches that
call back to this very override (the token object lands in the passw
position and is never inspected before recursing again), so the call
never reaches a base case.  The unbounded recursion is made explicit
with a fuel argument: `none` is the diverging computation. -/
def split_pin_pass (conf : TokenConf) : Nat → String → Option (Int × String × String)
  | 0, _ => none
  | Nat.succ fuel, passw =>
      if conf.check_pin_local then
        split_pin_pass conf fuel passw
      else
        some (0, "", passw)

/-- Result shape shared by is_challenge_request and check_otp: the
boolean answer, the updated options, and the request log. -/
structure BoolOut where
  result : Bool
  opts : Options
  sent : List Request
deriving DecidableEq

/-- is_challenge_request (lines 148-181).  Note line 177 passes the full
`passw` to check_radius, not the `otpval` remainder computed by the
split; in local-PIN mode the split itself diverges first (fuel model:
`none`).  The cached radius_result, when non-None, is used instead of a
new check_radius call. -/
def is_challenge_request (conf : TokenConf) (env : Env) (fuel : Nat) (passw : String)
    (opts : Options) (log : List Request) : Option BoolOut :=
  let state := opts.radius_state
  let proceed : Option BoolOut :=
    match opts.radius_result with
    | none =>
        let out := check_radius conf env passw opts state log
        some { result := out.result == 1, opts := out.opts, sent := out.sent }
    | some r => some { result := r == 1, opts := opts, sent := log }
  if conf.check_pin_local then
    match split_pin_pass conf fuel passw with
    | none => none
    | some (_res, pin, _otpval) =>
        if env.checkPin pin then proceed
        else some { result := false, opts := opts, sent := log }
  else
    proceed

/-- check_otp (lines 392-396): one unconditional check_radius call (no
radius_state argument, no cached-result consultation), true iff the
verdict is not -1. -/
def check_otp (conf : TokenConf) (env : Env) (otpval : String)
    (opts : Options) (log : List Request) : BoolOut :=
  let out := check_radius conf env otpval opts none log
  { result := out.result != -1, opts := out.opts, sent := out.sent }

/-- The reply dictionary authenticate builds. -/
structure Reply where
  message : String
  serial : Option String := none
  type : Option String := none
deriving DecidableEq

/-- The verdict-to-reply mapping of authenticate lines 380-389. -/
def authReply (conf : TokenConf) (r : Int) : Bool × Reply :=
  if r = 0 then
    (true, { message := "matching 1 tokens", serial := some conf.serial, type := some "radius" })
  else if r = 1 then
    (false, { message := "unexpected challenge required" })
  else
    (false, { message := "remote side denied access" })

/-- Result of authenticate: success flag, otp_counter, reply, updated
options and request log. -/
structure AuthOut where
  success : Bool
  counter : Int
  reply : Reply
  opts : Options
  sent : List Request
deriving DecidableEq

/-- authenticate (lines 342-390).  In local-PIN mode it first calls
split_pin_pass (which diverges, hence the fuel and the Option result);
were the split to return, a failed PIN check short-circuits with the
Wrong PIN reply and no network call.  Otherwise the cached
radius_result is used when non-None, else check_radius runs on the OTP
value with the saved radius_state. -/
def authenticate (conf : TokenConf) (env : Env) (fuel : Nat) (passw : String)
    (opts : Options) (log : List Request) : Option AuthOut :=
  let proceed : String → Option AuthOut := fun otpval =>
    let state := opts.radius_state
    match opts.radius_result with
    | none =>
        let out := check_radius conf env otpval opts state log
        let sr := authReply conf out.result
        some { success := sr.1, counter := out.result, reply := sr.2,
               opts := out.opts, sent := out.sent }
    | some r =>
        let sr := authReply conf r
        some { success := sr.1, counter := r, reply := sr.2, opts := opts, sent := log }
  if conf.check_pin_local then
    match split_pin_pass conf fuel passw with
    | none => none
    | some (_res, pin, otpval) =>
        if env.checkPin pin then proceed otpval
        else some { success := false, counter := -1, reply := { message := "Wrong PIN" },
                    opts := opts, sent := log }
  else
    proceed passw

/-- The transaction id lookup shared by both challenge-response entry
points: options.get("transaction_id"), falling back to
options.get("state") when the former is None. -/
def txnId (opts : Options) : Option String :=
  match opts.transaction_id with
  | some t => some t
  | none => opts.state

/-- The challenge loop of check_challenge_response (lines 297-311):
valid challenges replay their stored data through check_radius; a 0
verdict deletes the record and breaks with 0; anything else increments
the receive counter and continues, leaving -1 when no candidate
accepted.  Returns (otp_counter, options, request log, surviving
challenge records). -/
def ccr_loop (conf : TokenConf) (env : Env) (passw : String) :
    List ChallengeRec → Options → List Request →
      Int × Options × List Request × List ChallengeRec
  | [], opts, log => (-1, opts, log, [])
  | c :: rest, opts, log =>
      if c.valid then
        let out := check_radius conf env passw opts c.data log
        if out.result = 0 then
          (0, out.opts, out.sent, rest)
        else
          let tail := ccr_loop conf env passw rest out.opts out.sent
          (tail.1, tail.2.1, tail.2.2.1,
            { c with otp_received := c.otp_received + 1 } :: tail.2.2.2)
      else
        let tail := ccr_loop conf env passw rest opts log
        (tail.1, tail.2.1, tail.2.2.1, c :: tail.2.2.2)

/-- Result of check_challenge_response: the otp_counter, options,
request log, surviving challenge records, and whether
challenge_janitor() ran. -/
structure CCROut where
  otp_counter : Int
  opts : Options
  sent : List Request
  challenges : List ChallengeRec
  janitor : Bool
deriving DecidableEq

/-- check_challenge_response (lines 265-314).  The challenge list stands
for get_challenges(serial, transaction_id); the loop runs only when the
transaction id is not None (line 293), and challenge_janitor() runs on
every path before returning (line 313). -/
def check_challenge_response (conf : TokenConf) (env : Env) (passw : String)
    (opts : Options) (challenges : List ChallengeRec) (log : List Request) : CCROut :=
  match txnId opts with
  | none =>
      { otp_counter := -1, opts := opts, sent := log, challenges := challenges,
        janitor := true }
  | some _ =>
      let r := ccr_loop conf env passw challenges opts log
      { otp_counter := r.1, opts := r.2.1, sent := r.2.2.1, challenges := r.2.2.2,
        janitor := true }

/-- Result of is_challenge_response: the boolean answer, options,
request log, surviving challenge records, and whether
challenge_janitor() ran. -/
structure ICROut where
  response : Bool
  opts : Options
  sent : List Request
  challenges : List ChallengeRec
  janitor : Bool
deriving DecidableEq

/-- The challenge loop of is_challenge_response (lines 248-261): a valid
challenge replays its stored data; a non-Challenge verdict marks the
request as a terminal response (without deleting), while a repeated
Challenge verdict deletes the stale record and runs the janitor. -/
def icr_loop (conf : TokenConf) (env : Env) (passw : String) :
    List ChallengeRec → Bool → Options → List Request →
      Bool × Options × List Request × List ChallengeRec × Bool
  | [], acc, opts, log => (acc, opts, log, [], false)
  | c :: rest, acc, opts, log =>
      if c.valid then
        let out := check_radius conf env passw opts c.data log
        if out.result ≠ 1 then
          let tail := icr_loop conf env passw rest true out.opts out.sent
          (tail.1, tail.2.1, tail.2.2.1, c :: tail.2.2.2.1, tail.2.2.2.2)
        else
          let tail := icr_loop conf env passw rest acc out.opts out.sent
          (tail.1, tail.2.1, tail.2.2.1, tail.2.2.2.1, true)
      else
        let tail := icr_loop conf env passw rest acc opts log
        (tail.1, tail.2.1, tail.2.2.1, c :: tail.2.2.2.1, tail.2.2.2.2)

/-- is_challenge_response (lines 212-263).  Line 236 resets the cached
radius_result to None before anything else; the loop runs only when the
transaction id is truthy (line 243). -/
def is_challenge_response (conf : TokenConf) (env : Env) (passw : String)
    (opts0 : Options) (challenges : List ChallengeRec) (log : List Request) : ICROut :=
  let opts := { opts0 with radius_result := none }
  match txnId opts with
  | some t =>
      if t = "" then
        { response := false, opts := opts, sent := log, challenges := challenges,
          janitor := false }
      else
        let r := icr_loop conf env passw challenges false opts log
        { response := r.1, opts := r.2.1, sent := r.2.2.1, challenges := r.2.2.2.1,
          janitor := r.2.2.2.2 }
  | none =>
      { response := false, opts := opts, sent := log, challenges := challenges,
        janitor := false }

/-- Modelled from the spec: is_challenge_request with the self-recursive
split_pin_pass replaced by a delegation to the hosting framework's base
PIN splitting (TokenClass.split_pin_pass, which is not part of this
module), supplied abstractly as baseSplit, which "separates a local PIN
prefix from the remainder".  Everything else, in particular the
check_radius call receiving the full passw (line 177), is the source
code unchanged.  This isolates the forwarded-credential question from
the recursion defect. -/
def is_challenge_request_delegating (conf : TokenConf) (env : Env)
    (baseSplit : String → Int × String × String) (passw : String)
    (opts : Options) (log : List Request) : BoolOut :=
  let state := opts.radius_state
  let proceed : BoolOut :=
    match opts.radius_result with
    | none =>
        let out := check_radius conf env passw opts state log
        { result := out.result == 1, opts := out.opts, sent := out.sent }
    | some r => { result := r == 1, opts := opts, sent := log }
  if conf.check_pin_local then
    let pin := (baseSplit passw).2.1
    if env.checkPin pin then proceed
    else { result := false, opts := opts, sent := log }
  else
    proceed

/-- A token with remote PIN checking (radius.local_checkpin unset). -/
def conf0 : TokenConf := { serial := "PIRA0001", check_pin_local := false }

/-- A token with local PIN checking (radius.local_checkpin set). -/
def confLocal : TokenConf := { serial := "PIRA0001", check_pin_local := true }

/-- A server that is unreachable: every exchange raises. -/
def envExn : Env := { respond := fun _ => NetResponse.exn, checkPin := fun _ => true }

/-- A server that always grants access. -/
def envAccept : Env :=
  { respond := fun _ => NetResponse.ok AccessAccept [], checkPin := fun _ => true }

/-- A server that always rejects. -/
def envReject : Env :=
  { respond := fun _ => NetResponse.ok AccessReject [], checkPin := fun _ => true }

/-- A server that challenges with State but without a Reply-Message
attribute (both are optional in an Access-Challenge). -/
def envChalNoMsg : Env :=
  { respond := fun _ => NetResponse.ok AccessChallenge [("State", "abc")],
    checkPin := fun _ => true }

/-- A server that challenges with State and Reply-Message. -/
def envChalFull : Env :=
  { respond := fun _ => NetResponse.ok AccessChallenge
      [("State", "abc"), ("Reply-Message", "enter code")],
    checkPin := fun _ => true }

/-- A base-class splitting behaviour for the delegating model: a fixed
four-character PIN prefix. -/
def baseSplitDemo : String → Int × String × String :=
  fun p => (0, p.take 4, p.drop 4)

/-- An attempt context carrying a cached Challenge verdict together with
the non-sentinel server state that accompanies it. -/
def optsChal : Options := { radius_result := some 1, radius_state := some "srvstate" }

/-- An attempt context in which a previous call already recorded a
reject verdict and the success sentinel (adversarial mix for C8). -/
def optsC8 : Options := { radius_result := some (-1), radius_state := some "<SUCCESS>" }

/-- An attempt context holding a transaction id. -/
def optsTid : Options := { transaction_id := some "0123456789" }

/-- A valid persisted challenge carrying saved server state "abc". -/
def cDemo : ChallengeRec := { valid := true, data := some "abc" }

/-- In local-PIN mode split_pin_pass never returns, whatever the fuel:
the recursion of line 338 re-enters the same override unconditionally. -/
theorem split_pin_pass_local_none (conf : TokenConf) (h : conf.check_pin_local = true) :
    ∀ (fuel : Nat) (passw : String), split_pin_pass conf fuel passw = none := by
  intro fuel
  induction fuel with
  | zero => intro _; rfl
  | succ n ih => intro passw; simp [split_pin_pass, h, ih passw]

/-- Claim C2: if the attempt context's radius_state holds the sentinel
"<SUCCESS>", check_radius returns 0 and clears the context's state and
message without sending any request; with "<REJECTED>" it returns -1
likewise — for every OTP value, token configuration, environment and
radius_state argument. -/
theorem claim_C2_sentinel_fast_paths (conf : TokenConf) (env : Env) (otpval : String)
    (opts : Options) (rstate : Option String) (log : List Request) :
    (opts.radius_state = some "<SUCCESS>" →
      check_radius conf env otpval opts rstate log =
        { result := 0,
          opts := { opts with radius_state := none, radius_message := none },
          sent := log }) ∧
    (opts.radius_state = some "<REJECTED>" →
      check_radius conf env otpval opts rstate log =
        { result := -1,
          opts := { opts with radius_state := none, radius_message := none },
          sent := log }) := by
  constructor
  · intro h
    simp [check_radius, h]
  · intro h
    simp [check_radius, h]

/-- Witness for claim C2 at concrete inputs: against an unreachable
server and with both sentinels. -/
theorem claim_C2_sentinel_fast_paths_witness :
    check_radius conf0 envExn "000000" { radius_state := some "<SUCCESS>" } none [] =
      { result := 0, opts := {}, sent := [] } ∧
    check_radius conf0 envExn "000000" { radius_state := some "<REJECTED>" } none [] =
      { result := -1, opts := {}, sent := [] } :=
  ⟨(claim_C2_sentinel_fast_paths conf0 envExn "000000"
      { radius_state := some "<SUCCESS>" } none []).1 rfl,
   (claim_C2_sentinel_fast_paths conf0 envExn "000000"
      { radius_state := some "<REJECTED>" } none []).2 rfl⟩

/-- Claim C4: when no sentinel short-circuits and the exchange raises
(unreachable server, malformed reply, any client exception inside the
try block), check_radius returns -1 — never 0, and, being a total
function of the response, never propagates the failure — and records
the reject verdict in the context. -/
theorem claim_C4_fail_closed (conf : TokenConf) (env : Env) (otpval : String)
    (opts : Options) (rstate : Option String) (log : List Request)
    (hns : opts.radius_state ≠ some "<SUCCESS>")
    (hnr : opts.radius_state ≠ some "<REJECTED>")
    (hx : env.respond log.length = NetResponse.exn) :
    check_radius conf env otpval opts rstate log =
      { result := -1,
        opts := { opts with
                  radius_result := some (-1),
                  radius_state := rstate,
                  radius_message := none },
        sent := log ++ [mkRequest otpval opts rstate] } := by
  unfold check_radius
  rw [if_neg hns, if_neg hnr, hx]

/-- Witness for claim C4: a fresh attempt against an unreachable server
yields -1 with the reject verdict recorded. -/
theorem claim_C4_fail_closed_witness :
    check_radius conf0 envExn "000000" {} none [] =
      { result := -1,
        opts := { radius_result := some (-1) },
        sent := [{ userPassword := "000000" }] } :=
  claim_C4_fail_closed conf0 envExn "000000" {} none []
    (by decide) (by decide) rfl

/-- Claim C1 counterexample: an AccessChallenge reply that lacks a
Reply-Message attribute yields verdict -1, not the Challenge verdict 1
that the claim assigns to every AccessChallenge reply — the unguarded
log access of line 500 raises KeyError into the except handler. -/
theorem claim_C1_counterexample :
    envChalNoMsg.respond 0 = NetResponse.ok AccessChallenge [("State", "abc")] ∧
    (check_radius conf0 envChalNoMsg "000000" {} none []).result = -1 :=
  ⟨rfl, rfl⟩

/-- Claim C1 (amended): when no sentinel short-circuits, the reply code
maps to the verdict and cached state as follows: an AccessChallenge
reply carrying both State and Reply-Message yields 1 with both captured
into the context for reuse; an AccessChallenge reply lacking either
attribute falls into the exception path and yields -1; AccessAccept
yields 0 with cached state "<SUCCESS>"; any other code (including
AccessReject) yields -1 with cached state "<REJECTED>". -/
theorem claim_C1_reply_code_mapping (conf : TokenConf) (env : Env) (otpval : String)
    (opts : Options) (rstate : Option String) (log : List Request)
    (code : Int) (attrs : List (String × String))
    (hns : opts.radius_state ≠ some "<SUCCESS>")
    (hnr : opts.radius_state ≠ some "<REJECTED>")
    (hre : env.respond log.length = NetResponse.ok code attrs) :
    (code = AccessChallenge →
      (∀ st msg, attrs.lookup "State" = some st →
        attrs.lookup "Reply-Message" = some msg →
        check_radius conf env otpval opts rstate log =
          { result := 1,
            opts := { opts with
                      radius_result := some 1,
                      radius_state := some st,
                      radius_message := some msg },
            sent := log ++ [mkRequest otpval opts rstate] }) ∧
      (attrs.lookup "State" = none ∨ attrs.lookup "Reply-Message" = none →
        (check_radius conf env otpval opts rstate log).result = -1)) ∧
    (code = AccessAccept →
      check_radius conf env otpval opts rstate log =
        { result := 0,
          opts := { opts with
                    radius_result := some 0,
                    radius_state := some "<SUCCESS>",
                    radius_message := some "RADIUS authentication succeeded" },
          sent := log ++ [mkRequest otpval opts rstate] }) ∧
    (code ≠ AccessChallenge → code ≠ AccessAccept →
      check_radius conf env otpval opts rstate log =
        { result := -1,
          opts := { opts with
                    radius_result := some (-1),
                    radius_state := some "<REJECTED>",
                    radius_message := some "RADIUS authentication failed" },
          sent := log ++ [mkRequest otpval opts rstate] }) := by
  have hbody : check_radius conf env otpval opts rstate log =
      (let sent := log ++ [mkRequest otpval opts rstate]
       if code = AccessChallenge then
         match attrs.lookup "State", attrs.lookup "Reply-Message" with
         | some st, some msg =>
             { result := 1,
               opts := { opts with
                         radius_result := some 1,
                         radius_state := some st,
                         radius_message := some msg },
               sent := sent }
         | some _, none =>
             { result := -1,
               opts := { opts with
                         radius_result := some (-1),
                         radius_state := rstate,
                         radius_message := none },
               sent := sent }
         | none, _ =>
             { result := -1,
               opts := { opts with
                         radius_result := some (-1),
                         radius_state := rstate,
                         radius_message := none },
               sent := sent }
       else if code = AccessAccept then
         { result := 0,
           opts := { opts with
                     radius_result := some 0,
                     radius_state := some "<SUCCESS>",
                     radius_message := some "RADIUS authentication succeeded" },
           sent := sent }
       else
         { result := -1,
           opts := { opts with
                     radius_result := some (-1),
                     radius_state := some "<REJECTED>",
                     radius_message := some "RADIUS authentication failed" },
           sent := sent }) := by
    unfold check_radius
    rw [if_neg hns, if_neg hnr, hre]
  refine ⟨fun hc => ⟨fun st msg hst hmsg => ?_, fun hmiss => ?_⟩,
          fun ha => ?_, fun hc ha => ?_⟩
  · rw [hbody]
    simp only [if_pos hc, hst, hmsg]
  · rw [hbody]
    rcases hmiss with hm | hm
    · rcases hrm : attrs.lookup "Reply-Message" with _ | msg <;>
        simp only [if_pos hc, hm, hrm]
    · rcases hsl : attrs.lookup "State" with _ | st <;>
        simp only [if_pos hc, hm, hsl]
  · rw [hbody]
    have hc : code ≠ AccessChallenge := by
      rw [ha]; decide
    simp only [if_neg hc, if_pos ha]
  · rw [hbody]
    simp only [if_neg hc, if_neg ha]

/-- Witness for claim C1 at concrete inputs: a full challenge reply, an
accept reply and a reject reply. -/
theorem claim_C1_reply_code_mapping_witness :
    check_radius conf0 envChalFull "000000" {} none [] =
      { result := 1,
        opts := { radius_result := some 1,
                  radius_state := some "abc",
                  radius_message := some "enter code" },
        sent := [{ userPassword := "000000" }] } ∧
    check_radius conf0 envAccept "000000" {} none [] =
      { result := 0,
        opts := { radius_result := some 0,
                  radius_state := some "<SUCCESS>",
                  radius_message := some "RADIUS authentication succeeded" },
        sent := [{ userPassword := "000000" }] } ∧
    check_radius conf0 envReject "000000" {} none [] =
      { result := -1,
        opts := { radius_result := some (-1),
                  radius_state := some "<REJECTED>",
                  radius_message := some "RADIUS authentication failed" },
        sent := [{ userPassword := "000000" }] } :=
  ⟨((claim_C1_reply_code_mapping conf0 envChalFull "000000" {} none []
      AccessChallenge [("State", "abc"), ("Reply-Message", "enter code")]
      (by decide) (by decide) rfl).1 rfl).1 "abc" "enter code" rfl rfl,
   (claim_C1_reply_code_mapping conf0 envAccept "000000" {} none []
      AccessAccept [] (by decide) (by decide) rfl).2.1 rfl,
   (claim_C1_reply_code_mapping conf0 envReject "000000" {} none []
      AccessReject [] (by decide) (by decide) rfl).2.2 (by decide) (by decide)⟩

/-- Claim C8 counterexample: on the "<SUCCESS>" fast path check_radius
returns verdict 0 but does not write it back — the context's
radius_result still holds the stale -1 it entered with. -/
theorem claim_C8_counterexample :
    (check_radius conf0 envExn "000000" optsC8 none []).result = 0 ∧
    (check_radius conf0 envExn "000000" optsC8 none []).opts.radius_result = some (-1) :=
  ⟨rfl, rfl⟩

/-- Claim C8 (amended): on the sentinel fast paths check_radius clears
radius_state and radius_message but leaves radius_result untouched; on
every other path — the three reply-code paths and the transport-failure
path — the returned verdict is written back into radius_result (and
radius_state and radius_message are written as the path dictates). -/
theorem claim_C8_writeback (conf : TokenConf) (env : Env) (otpval : String)
    (opts : Options) (rstate : Option String) (log : List Request) :
    ((opts.radius_state = some "<SUCCESS>" ∨ opts.radius_state = some "<REJECTED>") →
      (check_radius conf env otpval opts rstate log).opts.radius_result =
        opts.radius_result ∧
      (check_radius conf env otpval opts rstate log).opts.radius_state = none ∧
      (check_radius conf env otpval opts rstate log).opts.radius_message = none) ∧
    (opts.radius_state ≠ some "<SUCCESS>" → opts.radius_state ≠ some "<REJECTED>" →
      (check_radius conf env otpval opts rstate log).opts.radius_result =
        some (check_radius conf env otpval opts rstate log).result) := by
  constructor
  · rintro (h | h) <;> simp [check_radius, h]
  · intro h1 h2
    unfold check_radius
    rw [if_neg h1, if_neg h2]
    cases env.respond log.length with
    | exn => rfl
    | ok code attrs =>
        by_cases hc : code = AccessChallenge
        · simp only [if_pos hc]
          rcases hst : attrs.lookup "State" with _ | st
          · simp only [hst]
          · rcases hrm : attrs.lookup "Reply-Message" with _ | msg <;>
              simp only [hst, hrm]
        · by_cases ha : code = AccessAccept <;>
            simp only [if_neg hc, if_pos, if_neg, ha, if_true, if_false] <;> rfl

/-- Witness for claim C8: the sentinel path leaves a stale radius_result
in place, and a network reject writes its verdict back. -/
theorem claim_C8_writeback_witness :
    (check_radius conf0 envExn "000000" optsC8 none []).opts.radius_result = some (-1) ∧
    (check_radius conf0 envReject "000000" {} none []).opts.radius_result =
      some (check_radius conf0 envReject "000000" {} none []).result :=
  ⟨((claim_C8_writeback conf0 envExn "000000" optsC8 none []).1 (Or.inl rfl)).1,
   (claim_C8_writeback conf0 envReject "000000" {} none []).2 (by decide) (by decide)⟩

/-- Claim C3 counterexample: with the cached verdict radius_result = 1
already recorded in the attempt context (together with the non-sentinel
server state a Challenge verdict leaves behind), check_otp still
performs a RADIUS network call — one request is sent. -/
theorem claim_C3_counterexample :
    optsChal.radius_result = some 1 ∧
    (check_otp conf0 envChalFull "000000" optsChal []).sent.length = 1 :=
  ⟨rfl, rfl⟩

/-- Claim C3 (amended): the per-attempt memoization holds for
is_challenge_request and authenticate — once radius_result is non-empty
they return the cached verdict with no network call (in remote-PIN
mode, where they do not diverge) — while check_radius itself (and hence
check_otp, which never consults radius_result) skips the network
exactly when radius_state holds a sentinel, which is the state an
Accept or Reject verdict leaves behind; after a Challenge verdict a
further check_otp or direct check_radius contacts the server again. -/
theorem claim_C3_cached_verdict (conf : TokenConf) (env : Env) (fuel : Nat)
    (passw : String) (opts : Options) (log : List Request) (r : Int)
    (hc : conf.check_pin_local = false)
    (hr : opts.radius_result = some r) :
    is_challenge_request conf env fuel passw opts log =
      some { result := r == 1, opts := opts, sent := log } ∧
    authenticate conf env fuel passw opts log =
      some { success := (authReply conf r).1, counter := r,
             reply := (authReply conf r).2, opts := opts, sent := log } ∧
    (∀ (o2 : Options) (otpval : String) (rst : Option String) (lg : List Request),
      o2.radius_state = some "<SUCCESS>" ∨ o2.radius_state = some "<REJECTED>" →
      (check_radius conf env otpval o2 rst lg).sent = lg) := by
  refine ⟨?_, ?_, ?_⟩
  · simp [is_challenge_request, hc, hr]
  · simp [authenticate, hc, hr]
  · rintro o2 otpval rst lg (h | h) <;> simp [check_radius, h]

/-- Witness for claim C3 (amended): a cached Challenge verdict is
returned by is_challenge_request with no network traffic even against
an unreachable server, and a sentinel state short-circuits
check_radius. -/
theorem claim_C3_cached_verdict_witness :
    is_challenge_request conf0 envExn 0 "000000" optsChal [] =
      some { result := true, opts := optsChal, sent := [] } ∧
    (check_radius conf0 envExn "000000" { radius_state := some "<SUCCESS>" } none []).sent =
      [] :=
  ⟨(claim_C3_cached_verdict conf0 envExn 0 "000000" optsChal [] 1 rfl rfl).1,
   (claim_C3_cached_verdict conf0 envExn 0 "000000" optsChal [] 1 rfl rfl).2.2
     { radius_state := some "<SUCCESS>" } "000000" none [] (Or.inl rfl)⟩

/-- Claim C5 (code bug): with radius.local_checkpin set, authenticate
never returns — it enters split_pin_pass, whose line-338 recursion
re-enters itself unconditionally, so for every finite fuel the
computation is still running (none); the documented Wrong PIN
short-circuit is unreachable. -/
theorem claim_C5_local_pin_divergence :
    ∀ fuel : Nat, authenticate confLocal envAccept fuel "1234999999" {} [] = none := by
  intro fuel
  have hs : split_pin_pass confLocal fuel "1234999999" = none :=
    split_pin_pass_local_none confLocal rfl fuel "1234999999"
  simp only [authenticate, hs]
  rfl

/-- Claim C9 (code bug): in local-PIN mode is_challenge_request never
reaches the Bridge at all (the split diverges at every fuel), and even
with the splitting delegated to the base class as the spec intends, the
value line 177 hands to check_radius — and hence the plaintext
encrypted into User-Password — is the full passw, not the OTP remainder
of the split: with PIN "1234" and OTP "999999" the request carries
"1234999999". -/
theorem claim_C9_forwarded_password :
    (∀ fuel : Nat,
      is_challenge_request confLocal envChalFull fuel "1234999999" {} [] = none) ∧
    baseSplitDemo "1234999999" = (0, "1234", "999999") ∧
    (is_challenge_request_delegating confLocal envChalFull baseSplitDemo
        "1234999999" {} []).sent = [{ userPassword := "1234999999" }] := by
  refine ⟨fun fuel => ?_, rfl, rfl⟩
  have hs : split_pin_pass confLocal fuel "1234999999" = none :=
    split_pin_pass_local_none confLocal rfl fuel "1234999999"
  simp only [is_challenge_request, hs]
  rfl

/-- Claim C10 (code bug): split_pin_pass terminates with the whole input
and an empty PIN when check_pin_local is false, but diverges — none at
every fuel — when check_pin_local is true: the local-PIN splitting
never terminates. -/
theorem claim_C10_split_divergence :
    (∀ (fuel : Nat) (passw : String), split_pin_pass confLocal fuel passw = none) ∧
    (∀ (fuel : Nat) (passw : String),
      split_pin_pass conf0 (fuel + 1) passw = some (0, "", passw)) := by
  constructor
  · exact split_pin_pass_local_none confLocal rfl
  · intro fuel passw
    simp [split_pin_pass, conf0]

/-- Claim C6: for a valid persisted challenge matching a present
transaction id, a replay verdict of 0 deletes the record and the call
returns 0; any other replay verdict (including 1) retains the record
with its receive counter incremented and the call returns -1 when no
candidate accepted; and the janitor sweep runs on every path of
check_challenge_response, including no transaction id and no valid
challenge. -/
theorem claim_C6_challenge_replay (conf : TokenConf) (env : Env) (passw : String)
    (opts : Options) (c : ChallengeRec) (log : List Request)
    (hv : c.valid = true)
    (ht : (txnId opts).isSome = true) :
    ((check_radius conf env passw opts c.data log).result = 0 →
      check_challenge_response conf env passw opts [c] log =
        { otp_counter := 0,
          opts := (check_radius conf env passw opts c.data log).opts,
          sent := (check_radius conf env passw opts c.data log).sent,
          challenges := [],
          janitor := true }) ∧
    ((check_radius conf env passw opts c.data log).result ≠ 0 →
      check_challenge_response conf env passw opts [c] log =
        { otp_counter := -1,
          opts := (check_radius conf env passw opts c.data log).opts,
          sent := (check_radius conf env passw opts c.data log).sent,
          challenges := [{ c with otp_received := c.otp_received + 1 }],
          janitor := true }) ∧
    (∀ (o : Options) (cs : List ChallengeRec) (lg : List Request),
      (check_challenge_response conf env passw o cs lg).janitor = true) := by
  obtain ⟨t, htt⟩ := Option.isSome_iff_exists.mp ht
  refine ⟨fun h0 => ?_, fun h0 => ?_, fun o cs lg => ?_⟩
  · simp only [check_challenge_response, htt, ccr_loop, hv, if_true, if_pos h0]
  · simp only [check_challenge_response, htt, ccr_loop, hv, if_true, if_neg h0]
  · simp only [check_challenge_response]
    rcases h : txnId o with _ | t2 <;> simp only [h]

/-- Witness for claim C6: a single valid challenge whose replay is
accepted is deleted and the call returns 0 with the janitor run. -/
theorem claim_C6_challenge_replay_witness :
    check_challenge_response conf0 envAccept "000000" optsTid [cDemo] [] =
      { otp_counter := 0,
        opts := { radius_result := some 0,
                  radius_state := some "<SUCCESS>",
                  radius_message := some "RADIUS authentication succeeded",
                  transaction_id := some "0123456789" },
        sent := [{ userPassword := "000000", state := some "abc" }],
        challenges := [],
        janitor := true } :=
  (claim_C6_challenge_replay conf0 envAccept "000000" optsTid cDemo []
    rfl rfl).1 rfl

/-- Claim C7: for a valid persisted challenge matching a truthy
transaction id, a replay that comes back 1 (the server re-challenges)
deletes the stale record, runs the janitor sweep and returns false; any
other replay verdict returns true with the record left for the outer
caller to finalize; and the cached radius_result is reset to empty on
entry, before the first Bridge call, so the answer never depends on the
incoming cached verdict. -/
theorem claim_C7_challenge_redetect (conf : TokenConf) (env : Env) (passw : String)
    (opts : Options) (c : ChallengeRec) (log : List Request) (t : String)
    (hv : c.valid = true)
    (ht : txnId opts = some t)
    (hne : t ≠ "") :
    ((check_radius conf env passw { opts with radius_result := none } c.data log).result = 1 →
      is_challenge_response conf env passw opts [c] log =
        { response := false,
          opts := (check_radius conf env passw { opts with radius_result := none } c.data log).opts,
          sent := (check_radius conf env passw { opts with radius_result := none } c.data log).sent,
          challenges := [],
          janitor := true }) ∧
    ((check_radius conf env passw { opts with radius_result := none } c.data log).result ≠ 1 →
      is_challenge_response conf env passw opts [c] log =
        { response := true,
          opts := (check_radius conf env passw { opts with radius_result := none } c.data log).opts,
          sent := (check_radius conf env passw { opts with radius_result := none } c.data log).sent,
          challenges := [c],
          janitor := false }) ∧
    (∀ (x : Option Int) (o : Options) (cs : List ChallengeRec) (lg : List Request),
      is_challenge_response conf env passw { o with radius_result := x } cs lg =
        is_challenge_response conf env passw o cs lg) := by
  have htr : txnId { opts with radius_result := none } = some t := ht
  refine ⟨fun h1 => ?_, fun h1 => ?_, fun x o cs lg => rfl⟩
  · simp only [is_challenge_response, htr, if_neg hne, icr_loop, hv, if_true,
               if_neg (show ¬ (check_radius conf env passw
                 { opts with radius_result := none } c.data log).result ≠ 1 from
                 not_not_intro h1)]
  · simp only [is_challenge_response, htr, if_neg hne, icr_loop, hv, if_true,
               if_pos h1]

/-- Witness for claim C7: a single valid challenge whose replay is
challenged again is deleted, the janitor runs, and the call answers
false. -/
theorem claim_C7_challenge_redetect_witness :
    is_challenge_response conf0 envChalFull "000000" optsTid [cDemo] [] =
      { response := false,
        opts := { radius_result := some 1,
                  radius_state := some "abc",
                  radius_message := some "enter code",
                  transaction_id := some "0123456789" },
        sent := [{ userPassword := "000000", state := some "abc" }],
        challenges := [],
        janitor := true } :=
  (claim_C7_challenge_redetect conf0 envChalFull "000000" optsTid cDemo []
    "0123456789" rfl rfl (by decide)).1 rfl

end RadiusToken
